import Mathlib

/-!
Verification of the analytics engine of `src/app.py` (PRO BETTING ANALYTICS).

The engine is shallowly embedded: a pandas DataFrame of market observations
becomes a `List Obs` in chronological order (`load_data` sorts by timestamp
before the engine runs, and the engine itself never reads the timestamp).
Python floats are idealised as rationals (`ℚ`).  Nullable pandas cells
(`side`, `team`) become `Option String`; a pandas `==` comparison against a
null cell is `False` (NaN compares unequal to everything), which
`pandasCellEq` reproduces.  Python exceptions are modelled with
`Except String`.

`pd.DataFrame(signals).sort_values('Score', ascending=False)` (app.py line
136) is modelled after pandas' `nargsort`: for `ascending=False` it
*reverses the values first*, takes a stable ascending argsort (numpy's
quicksort degenerates to insertion sort, which is stable, below 16
elements — the engine produces at most 6 signals), and reverses the
resulting indexer.  The two reversals cancel on ties, so the sort is a
*stable descending* sort: equal scores keep their encounter order.  On an
*empty* signal list,
`pd.DataFrame([])` has no `Score` column and `sort_values` raises
`KeyError`; this is modelled by the `Except.error` branch of `runEngine`.
-/

/-- One market observation (a row of the input CSV after `load_data`):
`market_type`, `side` (home/away or over/under, nullable), `team`
(nullable), American `odds`, and the `line`. -/
structure Obs where
  marketType : String
  side : Option String
  team : Option String
  odds : ℚ
  line : ℚ
  deriving DecidableEq

/-- app.py line 25: `1 + odds / 100 if odds >= 0 else 1 - 100 / odds`. -/
def decimalOdds (odds : ℚ) : ℚ :=
  if 0 ≤ odds then 1 + odds / 100 else 1 - 100 / odds

/-- The derived `decimal_odds` column of an observation. -/
def Obs.decOdds (o : Obs) : ℚ := decimalOdds o.odds

/-- Pandas equality between a nullable cell and a nullable scalar: a null
(NaN) on either side compares `False`. -/
def pandasCellEq : Option String → Option String → Bool
  | some c, some v => c == v
  | _, _ => false

/-- app.py lines 39-40: `df[df['side'] == s]['team'].dropna().iloc[0]`,
as an `Option` (`none` when `iloc[0]` would raise `IndexError`). -/
def firstTeam (df : List Obs) (sideLabel : String) : Option String :=
  ((df.filter fun o => o.side == some sideLabel).filterMap fun o => o.team).head?

/-- Helper for `uniqueTeams`: deduplication keeping first occurrences, in
encounter order, as `pandas.Series.unique` does. -/
def uniqueAux : List (Option String) → List (Option String) → List (Option String)
  | [], acc => acc
  | a :: l, acc => if acc.contains a then uniqueAux l acc else uniqueAux l (acc ++ [a])

/-- app.py line 43: `self.df['team'].unique()` — distinct team cells
(nulls included) in first-encounter order. -/
def uniqueTeams (df : List Obs) : List (Option String) :=
  uniqueAux (df.map fun o => o.team) []

/-- The dict returned by `_detect_match_info`.  A field is `none` when the
fallback picked a null (NaN) team cell. -/
structure MatchInfo where
  home : Option String
  away : Option String
  deriving DecidableEq

/-- app.py lines 37-44, `_detect_match_info`: first non-null team of a
`side == 'home'` row and of a `side == 'away'` row; on any failure, fall
back to the first two distinct team cells (`teams[0]` raises `IndexError`
when the dataset has no rows, hence the `Except.error` branch). -/
def detectMatchInfo (df : List Obs) : Except String MatchInfo :=
  match firstTeam df "home", firstTeam df "away" with
  | some h, some a => .ok ⟨some h, some a⟩
  | _, _ =>
    match uniqueTeams df with
    | [] => .error "IndexError"
    | [t] => .ok ⟨t, some "Unknown"⟩
    | t1 :: t2 :: _ => .ok ⟨t1, t2⟩

/-- app.py lines 47-50: the filtered subset for a (market, selection)
pair — by side for Total, by team otherwise. -/
def metricsSubset (df : List Obs) (marketType : String) (selection : Option String) : List Obs :=
  if marketType == "Total" then
    df.filter fun o => o.marketType == "Total" && pandasCellEq o.side selection
  else
    df.filter fun o => o.marketType == marketType && pandasCellEq o.team selection

/-- Mean of a rational column (`Series.mean`); slices passed to it are
nonempty. -/
def listMean (l : List ℚ) : ℚ := l.sum / (l.length : ℚ)

/-- app.py line 54: `max(3, int(len(subset) * 0.15))`.  The truncation of
the nonnegative product `len * 0.15 = len * 3/20` is the natural-number
division `15 * len / 100`. -/
def windowSize (count : ℕ) : ℕ := max 3 (15 * count / 100)

/-- The dict returned by `_get_metrics` when the subset is large enough. -/
structure Metric where
  open_line : ℚ
  close_line : ℚ
  money_flow : ℚ
  current_odds : ℚ
  deriving DecidableEq

/-- app.py lines 46-75, `_get_metrics`: `None` when the filtered subset has
fewer than 5 rows; otherwise window averages (`iloc[:n]` is `take n`,
`iloc[-n:]` is `drop (len - n)`), implied probabilities guarded by
`avg > 0`, and the money-flow delta. -/
def getMetrics (df : List Obs) (marketType : String) (selection : Option String) :
    Option Metric :=
  let subset := metricsSubset df marketType selection
  if subset.length < 5 then none
  else
    let n := windowSize subset.length
    let openSlice := subset.take n
    let closeSlice := subset.drop (subset.length - n)
    let avgOpenOdds := listMean (openSlice.map Obs.decOdds)
    let avgCloseOdds := listMean (closeSlice.map Obs.decOdds)
    let avgOpenLine := if marketType == "Moneyline" then 0
      else listMean (openSlice.map fun o => o.line)
    let avgCloseLine := if marketType == "Moneyline" then 0
      else listMean (closeSlice.map fun o => o.line)
    let probOpen := if 0 < avgOpenOdds then 1 / avgOpenOdds else 0
    let probClose := if 0 < avgCloseOdds then 1 / avgCloseOdds else 0
    some { open_line := avgOpenLine, close_line := avgCloseLine,
           money_flow := (probClose - probOpen) * 100, current_odds := avgCloseOdds }

/-- app.py lines 77-95, `_calculate_score`: baseline 5, sequential
money-flow and market-specific adjustments, then `max(1, min(10, score))`. -/
def calculateScore (marketType : String) (m : Metric) (selection : Option String) : ℤ :=
  let s1 : ℤ := 5
  let s2 := if m.money_flow > 0.5 then s1 + 2
    else if m.money_flow < -0.5 then s1 - 2 else s1
  let s3 :=
    if marketType == "Spread" then
      if m.close_line < m.open_line then s2 + 2 else s2 - 1
    else if marketType == "Total" then
      if selection = some "over" ∧ m.close_line < m.open_line ∧ m.money_flow > 0 then s2 + 3
      else if selection = some "under" ∧ m.close_line > m.open_line ∧ m.money_flow > 0 then s2 + 3
      else s2
    else if marketType == "Moneyline" then
      if m.money_flow > 1.5 then s2 + 3 else s2
    else s2
  max 1 (min 10 s3)

/-- app.py lines 138-141, `_get_risk_label` ("SCĂZUT" = LOW, "MEDIU" =
MEDIUM, "RIDICAT" = HIGH). -/
def getRiskLabel (score : ℤ) : String :=
  if score ≥ 7 then "SCĂZUT" else if score ≥ 5 then "MEDIU" else "RIDICAT"

/-- Structured content of the `Safe Bet Line` cell; rendering it to a
fixed-point string (`:.1f`) is presentation, not engine logic. -/
inductive BetLine where
  | teamLine (team : Option String) (value : ℚ)
  | sideLine (side : String) (value : ℚ)
  | text (msg : String)
  deriving DecidableEq

/-- One row appended to `signals` in `analyze_all`. -/
structure Signal where
  market : String
  selection : Option String
  score : ℤ
  risk : String
  safeBetLine : BetLine
  metrics : Metric
  deriving DecidableEq

/-- app.py lines 102-110: the Spread pass body for one team. -/
def mkSpreadSignal (df : List Obs) (spreadBuffer : ℚ) (team : Option String) : Option Signal :=
  (getMetrics df "Spread" team).map fun m =>
    let score := calculateScore "Spread" m team
    { market := "SPREAD", selection := team, score := score, risk := getRiskLabel score,
      safeBetLine := .teamLine team (m.close_line + spreadBuffer), metrics := m }

/-- Python `str.upper()` (ASCII input; applied to the Total side labels). -/
def pyUpper (s : String) : String := String.mk (s.data.map Char.toUpper)

/-- Python `str.title()` on one lowercase word (`side.title()`). -/
def pyTitle (s : String) : String :=
  match s.data with
  | [] => ""
  | c :: cs => String.mk (c.toUpper :: cs)

/-- app.py lines 113-122: the Total pass body for one of over/under. -/
def mkTotalSignal (df : List Obs) (totalBuffer : ℚ) (side : String) : Option Signal :=
  (getMetrics df "Total" (some side)).map fun m =>
    let score := calculateScore "Total" m (some side)
    let val := if side == "over" then m.close_line - totalBuffer else m.close_line + totalBuffer
    { market := "TOTAL " ++ pyUpper side, selection := some "Puncte", score := score,
      risk := getRiskLabel score, safeBetLine := .sideLine (pyTitle side) val, metrics := m }

/-- app.py lines 125-134: the Moneyline pass body for one team. -/
def mkMoneylineSignal (df : List Obs) (team : Option String) : Option Signal :=
  (getMetrics df "Moneyline" team).map fun m =>
    let score := calculateScore "Moneyline" m team
    let recText := if m.current_odds < 2 then "Victorie (ML)" else "Evită / H+ Alternativ"
    { market := "MONEYLINE", selection := team, score := score, risk := getRiskLabel score,
      safeBetLine := .text recText, metrics := m }

/-- app.py lines 99-134: the `signals` list in encounter order — the Spread
pass over `self.teams.items()` (home then away), the Total pass over
over/under, then the Moneyline pass over home/away. -/
def rawSignals (df : List Obs) (sb tb : ℚ) (teams : MatchInfo) : List Signal :=
  ([teams.home, teams.away].filterMap (mkSpreadSignal df sb))
    ++ (["over", "under"].filterMap (mkTotalSignal df tb))
    ++ ([teams.home, teams.away].filterMap (mkMoneylineSignal df))

/-- The ordering used by `sort_values('Score', ...)`. -/
def scoreLE (a b : Signal) : Prop := a.score ≤ b.score

instance : DecidableRel scoreLE := fun a b => Int.decLe a.score b.score

instance : IsTotal Signal scoreLE := ⟨fun a b => Int.le_total a.score b.score⟩

instance : IsTrans Signal scoreLE := ⟨fun _ _ _ h h2 => le_trans h h2⟩

/-- The whole engine run: `AnalyticsEngine(df, sb, tb).analyze_all()`.
Construction computes `self.teams` (which can raise `IndexError` on an
empty dataset); `analyze_all` collects the signals and sorts the resulting
DataFrame by descending score.  Following pandas' `nargsort` (reverse the
rows, stable ascending argsort, reverse the indexer — a stable
*descending* sort that keeps ties in encounter order), the model is
`reverse ∘ insertionSort ∘ reverse`.  When no signal was produced the
empty DataFrame has no `Score` column and `sort_values` raises
`KeyError`. -/
def runEngine (df : List Obs) (sb tb : ℚ) : Except String (List Signal) :=
  match detectMatchInfo df with
  | .error e => .error e
  | .ok teams =>
    let signals := rawSignals df sb tb teams
    if signals.isEmpty then .error "KeyError Score"
    else .ok (List.insertionSort scoreLE signals.reverse).reverse

/-- Default `spread_buffer` (app.py line 31). -/
def defaultSpreadBuffer : ℚ := 3.5

/-- Default `total_buffer` (app.py line 31). -/
def defaultTotalBuffer : ℚ := 6.0

/-! ### Definitions following the specification's wording

These restate components in the spec's own vocabulary (spec §4.3 and §4.4);
the refinement theorems below compare them with the source translations. -/

/-- Spec §4.3 step 3: window size `n = max(3, floor(0.15 * count))`. -/
def windowSizeSpec (count : ℕ) : ℕ := max 3 (Nat.floor ((0.15 : ℚ) * count))

/-- Spec §4.3 steps 1-8, as written: filtered subset, window slices, mean
odds, mean lines (0 for Moneyline), guarded implied probabilities and the
money-flow delta `(prob_close - prob_open) * 100`. -/
def metricsSpec (df : List Obs) (marketType : String) (selection : Option String) : Metric :=
  let subset := metricsSubset df marketType selection
  let n := windowSizeSpec subset.length
  let openSlice := subset.take n
  let closeSlice := subset.drop (subset.length - n)
  let avgOpenOdds := listMean (openSlice.map Obs.decOdds)
  let avgCloseOdds := listMean (closeSlice.map Obs.decOdds)
  let probOpen := if avgOpenOdds > 0 then 1 / avgOpenOdds else 0
  let probClose := if avgCloseOdds > 0 then 1 / avgCloseOdds else 0
  { open_line := if marketType == "Moneyline" then 0
      else listMean (openSlice.map fun o => o.line),
    close_line := if marketType == "Moneyline" then 0
      else listMean (closeSlice.map fun o => o.line),
    money_flow := (probClose - probOpen) * 100,
    current_odds := avgCloseOdds }

/-- Spec §4.4, money-flow row of the adjustment table. -/
def flowAdjSpec (m : Metric) : ℤ :=
  if m.money_flow > 0.5 then 2 else if m.money_flow < -0.5 then -2 else 0

/-- Spec §4.4, the market-specific row of the adjustment table selected by
`market_type` (0 when no row's condition fires). -/
def marketAdjSpec (marketType : String) (m : Metric) (selection : Option String) : ℤ :=
  if marketType = "Spread" then (if m.close_line < m.open_line then 2 else -1)
  else if marketType = "Total" then
    (if selection = some "over" ∧ m.close_line < m.open_line ∧ m.money_flow > 0 then 3
     else if selection = some "under" ∧ m.close_line > m.open_line ∧ m.money_flow > 0 then 3
     else 0)
  else if marketType = "Moneyline" then (if m.money_flow > 1.5 then 3 else 0)
  else 0

/-- Spec §4.4: baseline 5, additive adjustments, clamp to [1,10] at the end. -/
def scoreSpec (marketType : String) (m : Metric) (selection : Option String) : ℤ :=
  max 1 (min 10 (5 + flowAdjSpec m + marketAdjSpec marketType m selection))

/-- The six (market_type, selection) pairs `analyze_all` queries, in
encounter order. -/
def queriedPairs (teams : MatchInfo) : List (String × Option String) :=
  [("Spread", teams.home), ("Spread", teams.away),
   ("Total", some "over"), ("Total", some "under"),
   ("Moneyline", teams.home), ("Moneyline", teams.away)]

/-- The (`Market`, `Selection`) cells of the signal row that `analyze_all`
emits for a queried pair. -/
def sigLabel (marketType : String) (selection : Option String) : String × Option String :=
  if marketType = "Total" then ("TOTAL " ++ pyUpper (selection.getD ""), some "Puncte")
  else if marketType = "Spread" then ("SPREAD", selection)
  else ("MONEYLINE", selection)

/-! ### Concrete datasets used by counterexamples and witnesses -/

/-- A Spread observation row. -/
def spreadRow (t sd : String) (odds line : ℚ) : Obs :=
  { marketType := "Spread", side := some sd, team := some t, odds := odds, line := line }

/-- Home-team row of the tie dataset. -/
def rowA : Obs := spreadRow "A" "home" 100 0

/-- Away-team row of the tie dataset. -/
def rowB : Obs := spreadRow "B" "away" 100 0

/-- Ten observations producing exactly two Spread signals with equal
scores: five for home team A, then five for away team B. -/
def tieDf : List Obs := [rowA, rowA, rowA, rowA, rowA, rowB, rowB, rowB, rowB, rowB]

/-- The match `tieDf` detects. -/
def tieTeams : MatchInfo := ⟨some "A", some "B"⟩

/-- The Spread signal `analyze_all` builds for team A on `tieDf`. -/
def sigA : Signal :=
  { market := "SPREAD", selection := some "A", score := 4, risk := "RIDICAT",
    safeBetLine := .teamLine (some "A") (7/2), metrics := ⟨0, 0, 0, 2⟩ }

/-- The Spread signal `analyze_all` builds for team B on `tieDf`. -/
def sigB : Signal :=
  { market := "SPREAD", selection := some "B", score := 4, risk := "RIDICAT",
    safeBetLine := .teamLine (some "B") (7/2), metrics := ⟨0, 0, 0, 2⟩ }

/-- Four observations: every (market, selection) pair is below the
five-observation threshold, so no signal at all is produced. -/
def noSigDf : List Obs := [rowA, rowA, rowA, rowA]

/-- One observation with a null side label, forcing the match-detection
fallback with a single distinct team. -/
def fallbackDf : List Obs :=
  [{ marketType := "Spread", side := none, team := some "X", odds := 100, line := 0 }]

/-! ### C4 — odds normalizer -/

/-- C4: for every nonzero American odds value the normalizer computes
`1 + odds/100` when `odds ≥ 0` and `1 - 100/odds` when `odds < 0`, and the
decimal odds are strictly greater than 1. -/
theorem decimalOdds_formula_and_gt_one (odds : ℚ) (h : odds ≠ 0) :
    (0 ≤ odds → decimalOdds odds = 1 + odds / 100) ∧
    (odds < 0 → decimalOdds odds = 1 - 100 / odds) ∧
    1 < decimalOdds odds := by
  refine ⟨fun hp => if_pos hp, fun hn => if_neg (not_le.mpr hn), ?_⟩
  unfold decimalOdds
  rcases lt_or_gt_of_ne h with hn | hp
  · rw [if_neg (not_le.mpr hn)]
    have : 100 / odds < 0 := div_neg_of_pos_of_neg (by norm_num) hn
    linarith
  · rw [if_pos hp.le]
    have : 0 < odds / 100 := div_pos hp (by norm_num)
    linarith

/-- Witness for C4 at the concrete odds −150 (decimal 5/3). -/
theorem decimalOdds_formula_and_gt_one_witness :
    ((-150 : ℚ) ≠ 0) ∧ 1 < decimalOdds (-150) :=
  ⟨by norm_num, (decimalOdds_formula_and_gt_one (-150) (by norm_num)).2.2⟩

/-! ### C6 — metrics computation refines the spec formulas -/

/-- The `int(len * 0.15)` truncation of the source equals the
`floor(0.15 * count)` of the spec. -/
theorem windowSizeSpec_eq (c : ℕ) : windowSizeSpec c = windowSize c := by
  unfold windowSizeSpec windowSize
  congr 1
  have h : (0.15 : ℚ) * c = ((15 * c : ℕ) : ℚ) / ((100 : ℕ) : ℚ) := by
    push_cast
    ring
  rw [h, Nat.floor_div_nat, Nat.floor_natCast]

/-- C6: on a filtered subset of at least 5 observations, `_get_metrics`
returns exactly the Metric prescribed by spec §4.3: window size
`max(3, ⌊0.15·count⌋)`, first-`n`/last-`n` slices, implied probability
`1/avg` guarded at 0, and `money_flow = (prob_close - prob_open)·100`. -/
theorem getMetrics_eq_spec (df : List Obs) (marketType : String) (selection : Option String)
    (h : 5 ≤ (metricsSubset df marketType selection).length) :
    getMetrics df marketType selection = some (metricsSpec df marketType selection) := by
  rw [getMetrics, metricsSpec, windowSizeSpec_eq]
  simp only [if_neg (by omega : ¬(metricsSubset df marketType selection).length < 5)]

/-! ### C7 — scoring is additive adjustments with a final clamp -/

/-- C7: for every market type, metric and selection the sequentially
computed score equals the spec's additive form — baseline 5, plus the
money-flow adjustment, plus exactly one market-specific adjustment —
clamped to [1,10] at the end, and the result indeed lies in [1,10]. -/
theorem calculateScore_eq_spec (marketType : String) (m : Metric) (selection : Option String) :
    calculateScore marketType m selection = scoreSpec marketType m selection ∧
    1 ≤ calculateScore marketType m selection ∧
    calculateScore marketType m selection ≤ 10 := by
  have hspec : calculateScore marketType m selection = scoreSpec marketType m selection := by
    unfold calculateScore scoreSpec flowAdjSpec marketAdjSpec
    simp only [beq_iff_eq]
    split_ifs <;> omega
  refine ⟨hspec, ?_, ?_⟩ <;> rw [hspec] <;> unfold scoreSpec <;> omega

/-! ### C8 — risk classification -/

/-- C8: the risk label is a total function of the score alone:
LOW ("SCĂZUT") for score ≥ 7, MEDIUM ("MEDIU") for 5 ≤ score ≤ 6, and
HIGH ("RIDICAT") for score < 5. -/
theorem getRiskLabel_spec (score : ℤ) :
    (7 ≤ score → getRiskLabel score = "SCĂZUT") ∧
    (5 ≤ score ∧ score ≤ 6 → getRiskLabel score = "MEDIU") ∧
    (score < 5 → getRiskLabel score = "RIDICAT") := by
  unfold getRiskLabel
  refine ⟨fun h => if_pos h, fun h => ?_, fun h => ?_⟩
  · rw [if_neg (by omega), if_pos (by omega)]
  · rw [if_neg (by omega), if_neg (by omega)]

/-- Witness for C8 at the concrete scores 8, 5 and 2. -/
theorem getRiskLabel_spec_witness :
    getRiskLabel 8 = "SCĂZUT" ∧ getRiskLabel 5 = "MEDIU" ∧ getRiskLabel 2 = "RIDICAT" :=
  ⟨(getRiskLabel_spec 8).1 (by norm_num),
   (getRiskLabel_spec 5).2.1 (by norm_num),
   (getRiskLabel_spec 2).2.2 (by norm_num)⟩

/-! ### C10 — attainable score ranges per market -/

/-- C10: a Spread score always lies in [2,9] (never 1, never 10), while
Total and Moneyline scores can reach 10. -/
theorem spreadScore_range_total_moneyline_reach_ten :
    (∀ (m : Metric) (selection : Option String),
      2 ≤ calculateScore "Spread" m selection ∧ calculateScore "Spread" m selection ≤ 9) ∧
    (∃ m : Metric, calculateScore "Total" m (some "over") = 10) ∧
    (∃ m : Metric, calculateScore "Moneyline" m none = 10) := by
  refine ⟨fun m selection => ?_, ⟨⟨1, 0, 1, 2⟩, ?_⟩, ⟨⟨0, 0, 2, 2⟩, ?_⟩⟩
  · unfold calculateScore
    simp only [beq_iff_eq]
    split_ifs <;> omega
  · norm_num [calculateScore]
    rw [if_neg (by decide : ¬("Total" : String) = "Spread")]
    norm_num
  · norm_num [calculateScore]
    rw [if_neg (by decide : ¬("Moneyline" : String) = "Spread"),
        if_neg (by decide : ¬("Moneyline" : String) = "Total")]
    norm_num

/-! ### C3 — match detection -/

/-- The accumulator of `uniqueAux` is only ever appended to. -/
theorem uniqueAux_append (l : List (Option String)) :
    ∀ acc, ∃ rest, uniqueAux l acc = acc ++ rest := by
  induction l with
  | nil => exact fun acc => ⟨[], by simp [uniqueAux]⟩
  | cons a t ih =>
    intro acc
    rw [uniqueAux]
    by_cases h : acc.contains a
    · rw [if_pos h]
      exact ih acc
    · rw [if_neg h]
      obtain ⟨r, hr⟩ := ih (acc ++ [a])
      exact ⟨a :: r, by simp [hr]⟩

/-- A nonempty dataset yields a nonempty list of distinct teams, headed by
the first team cell encountered. -/
theorem uniqueTeams_cons (o : Obs) (t : List Obs) :
    ∃ rest, uniqueTeams (o :: t) = o.team :: rest := by
  obtain ⟨r, hr⟩ := uniqueAux_append (t.map fun o => o.team) [o.team]
  refine ⟨r, ?_⟩
  rw [uniqueTeams, List.map_cons, uniqueAux]
  simpa using hr

/-- C3 (amended): on a *nonempty* observation set, match detection never
raises; when the home/away lookup fails it falls back to the first distinct
team cell as home and the second as away, with away = "Unknown" when fewer
than two distinct team cells exist.  (On the empty set the fallback raises
`IndexError`, see the counterexample.) -/
theorem detectMatchInfo_nonempty_never_raises (df : List Obs) (h : df ≠ []) :
    (detectMatchInfo df).isOk = true ∧
    ((firstTeam df "home").isNone ∨ (firstTeam df "away").isNone →
      ∃ t rest, uniqueTeams df = t :: rest ∧
        detectMatchInfo df = .ok ⟨t, rest.head?.getD (some "Unknown")⟩) := by
  obtain ⟨o, tl, rfl⟩ : ∃ o tl, df = o :: tl := by
    cases df with
    | nil => exact absurd rfl h
    | cons o tl => exact ⟨o, tl, rfl⟩
  obtain ⟨rest, hu⟩ := uniqueTeams_cons o tl
  rcases hh : firstTeam (o :: tl) "home" with _ | hteam
  · rw [detectMatchInfo, hh, hu]
    cases rest with
    | nil => exact ⟨rfl, fun _ => ⟨o.team, [], rfl, by cases ha : firstTeam (o :: tl) "away" <;> rfl⟩⟩
    | cons t2 r2 =>
      exact ⟨by cases ha : firstTeam (o :: tl) "away" <;> rfl,
        fun _ => ⟨o.team, t2 :: r2, rfl, by cases ha : firstTeam (o :: tl) "away" <;> rfl⟩⟩
  · rcases ha : firstTeam (o :: tl) "away" with _ | ateam
    · rw [detectMatchInfo, hh, ha, hu]
      cases rest with
      | nil => exact ⟨rfl, fun _ => ⟨o.team, [], rfl, rfl⟩⟩
      | cons t2 r2 => exact ⟨rfl, fun _ => ⟨o.team, t2 :: r2, rfl, rfl⟩⟩
    · rw [detectMatchInfo, hh, ha]
      exact ⟨rfl, fun hc => by simp at hc⟩

/-- C3 counterexample: on an observation set with no rows (hence no team
values at all) match detection raises `IndexError` instead of returning a
best-effort identification. -/
theorem detectMatchInfo_empty_raises_cex :
    detectMatchInfo ([] : List Obs) = .error "IndexError" := rfl

/-- Witness for the amended C3 on a concrete one-row dataset whose side
label is null (fallback path, single distinct team). -/
theorem detectMatchInfo_nonempty_never_raises_witness :
    fallbackDf ≠ [] ∧ (detectMatchInfo fallbackDf).isOk = true :=
  ⟨by simp [fallbackDf],
   (detectMatchInfo_nonempty_never_raises fallbackDf (by simp [fallbackDf])).1⟩

/-! ### Machinery: the signal list produced by `analyze_all` -/

/-- Unfolding a successful `runEngine` run: some signal was produced, and
the output is the stable descending sort (reverse, ascending insertion
sort, reverse) of the encounter-order list. -/
theorem runEngine_ok_elim {df : List Obs} {sb tb : ℚ} {teams : MatchInfo} {out : List Signal}
    (hd : detectMatchInfo df = .ok teams) (h : runEngine df sb tb = .ok out) :
    rawSignals df sb tb teams ≠ [] ∧
    out = (List.insertionSort scoreLE (rawSignals df sb tb teams).reverse).reverse := by
  simp only [runEngine, hd] at h
  cases hraw : rawSignals df sb tb teams with
  | nil => rw [hraw] at h; simp at h
  | cons s rest =>
    rw [hraw] at h
    simp only [List.isEmpty_cons, Bool.false_eq_true, if_false, Except.ok.injEq] at h
    exact ⟨by simp [hraw], h.symm⟩

/-- A successful run exists whenever detection succeeded and at least one
signal was produced. -/
theorem runEngine_ok_intro {df : List Obs} {sb tb : ℚ} {teams : MatchInfo}
    (hd : detectMatchInfo df = .ok teams) (hne : rawSignals df sb tb teams ≠ []) :
    runEngine df sb tb =
      .ok (List.insertionSort scoreLE (rawSignals df sb tb teams).reverse).reverse := by
  rw [runEngine, hd]
  cases hraw : rawSignals df sb tb teams with
  | nil => exact absurd hraw hne
  | cons s rest => simp [hraw]

/-- Membership in the encounter-order signal list: a signal comes from one
of the six pass bodies. -/
theorem mem_rawSignals {df : List Obs} {sb tb : ℚ} {teams : MatchInfo} {sig : Signal} :
    sig ∈ rawSignals df sb tb teams ↔
      mkSpreadSignal df sb teams.home = some sig ∨
      mkSpreadSignal df sb teams.away = some sig ∨
      mkTotalSignal df tb "over" = some sig ∨
      mkTotalSignal df tb "under" = some sig ∨
      mkMoneylineSignal df teams.home = some sig ∨
      mkMoneylineSignal df teams.away = some sig := by
  simp [rawSignals, or_assoc]

/-- Unfolding the Spread pass body. -/
theorem mkSpreadSignal_eq_some {df : List Obs} {sb : ℚ} {team : Option String} {sig : Signal} :
    mkSpreadSignal df sb team = some sig ↔
      ∃ m, getMetrics df "Spread" team = some m ∧
        sig = { market := "SPREAD", selection := team,
                score := calculateScore "Spread" m team,
                risk := getRiskLabel (calculateScore "Spread" m team),
                safeBetLine := .teamLine team (m.close_line + sb), metrics := m } := by
  rw [mkSpreadSignal, Option.map_eq_some']
  constructor <;> rintro ⟨m, hm, h⟩ <;> exact ⟨m, hm, h.symm⟩

/-- Unfolding the Total pass body. -/
theorem mkTotalSignal_eq_some {df : List Obs} {tb : ℚ} {side : String} {sig : Signal} :
    mkTotalSignal df tb side = some sig ↔
      ∃ m, getMetrics df "Total" (some side) = some m ∧
        sig = { market := "TOTAL " ++ pyUpper side, selection := some "Puncte",
                score := calculateScore "Total" m (some side),
                risk := getRiskLabel (calculateScore "Total" m (some side)),
                safeBetLine := .sideLine (pyTitle side)
                  (if side == "over" then m.close_line - tb else m.close_line + tb),
                metrics := m } := by
  rw [mkTotalSignal, Option.map_eq_some']
  constructor <;> rintro ⟨m, hm, h⟩ <;> exact ⟨m, hm, h.symm⟩

/-- Unfolding the Moneyline pass body. -/
theorem mkMoneylineSignal_eq_some {df : List Obs} {team : Option String} {sig : Signal} :
    mkMoneylineSignal df team = some sig ↔
      ∃ m, getMetrics df "Moneyline" team = some m ∧
        sig = { market := "MONEYLINE", selection := team,
                score := calculateScore "Moneyline" m team,
                risk := getRiskLabel (calculateScore "Moneyline" m team),
                safeBetLine := .text (if m.current_odds < 2 then "Victorie (ML)"
                  else "Evită / H+ Alternativ"),
                metrics := m } := by
  rw [mkMoneylineSignal, Option.map_eq_some']
  constructor <;> rintro ⟨m, hm, h⟩ <;> exact ⟨m, hm, h.symm⟩

/-! ### Machinery: stability of the sort -/

/-- Inserting a signal leaves the relative order of any score class
untouched, adding the new signal in front of its own class (every element
passed over has a strictly smaller score). -/
theorem filter_score_orderedInsert (s : ℤ) (a : Signal) (l : List Signal) :
    (List.orderedInsert scoreLE a l).filter (fun x => x.score == s) =
      if a.score = s then a :: l.filter (fun x => x.score == s)
      else l.filter (fun x => x.score == s) := by
  induction l with
  | nil =>
    simp only [List.orderedInsert, List.filter_cons, List.filter_nil, beq_iff_eq]
  | cons b t ih =>
    rw [List.orderedInsert]
    by_cases hab : scoreLE a b
    · rw [if_pos hab]
      simp only [List.filter_cons, beq_iff_eq]
    · rw [if_neg hab]
      have hb : b.score < a.score := lt_of_not_le hab
      simp only [List.filter_cons, beq_iff_eq, ih]
      by_cases h1 : b.score = s <;> by_cases h2 : a.score = s
      · exact absurd h1 (by omega)
      · simp [h1, h2]
      · simp [h1, h2]
      · simp [h1, h2]

/-- Stability: sorting does not reorder signals of equal score. -/
theorem filter_score_insertionSort (s : ℤ) (l : List Signal) :
    (List.insertionSort scoreLE l).filter (fun x => x.score == s) =
      l.filter (fun x => x.score == s) := by
  induction l with
  | nil => rfl
  | cons a t ih =>
    rw [List.insertionSort, filter_score_orderedInsert]
    rw [List.filter_cons]
    by_cases h : a.score = s
    · simp [h, ih]
    · simp [h, ih]

/-! ### Evaluation of the engine on the tie dataset -/

/-- The Spread/A subset of `tieDf` is the five A rows. -/
theorem tieDf_subset_A : metricsSubset tieDf "Spread" (some "A") = [rowA, rowA, rowA, rowA, rowA] := by
  simp [metricsSubset, tieDf, pandasCellEq, rowA, rowB, spreadRow]

/-- The Spread/B subset of `tieDf` is the five B rows. -/
theorem tieDf_subset_B : metricsSubset tieDf "Spread" (some "B") = [rowB, rowB, rowB, rowB, rowB] := by
  simp [metricsSubset, tieDf, pandasCellEq, rowA, rowB, spreadRow]

/-- Metrics of team A on `tieDf`: flat lines and odds, zero money flow. -/
theorem tieDf_metrics_A : getMetrics tieDf "Spread" (some "A") = some ⟨0, 0, 0, 2⟩ := by
  rw [getMetrics, tieDf_subset_A]
  norm_num [windowSize, listMean, Obs.decOdds, decimalOdds, rowA, spreadRow]

/-- Metrics of team B on `tieDf`. -/
theorem tieDf_metrics_B : getMetrics tieDf "Spread" (some "B") = some ⟨0, 0, 0, 2⟩ := by
  rw [getMetrics, tieDf_subset_B]
  norm_num [windowSize, listMean, Obs.decOdds, decimalOdds, rowB, spreadRow]

/-- The dataset `tieDf` has no Total observations. -/
theorem tieDf_metrics_total (sd : Option String) : getMetrics tieDf "Total" sd = none := by
  rw [getMetrics]
  simp [metricsSubset, tieDf, pandasCellEq, rowA, rowB, spreadRow]

/-- The dataset `tieDf` has no Moneyline observations. -/
theorem tieDf_metrics_ml (t : Option String) : getMetrics tieDf "Moneyline" t = none := by
  rw [getMetrics]
  simp [metricsSubset, tieDf, pandasCellEq, rowA, rowB, spreadRow]

/-- Match detection on `tieDf`. -/
theorem tieDf_detect : detectMatchInfo tieDf = .ok tieTeams := by
  simp [detectMatchInfo, firstTeam, tieDf, tieTeams, rowA, rowB, spreadRow]

/-- The Spread pass on team A yields `sigA`. -/
theorem tieDf_mkA : mkSpreadSignal tieDf (7/2) (some "A") = some sigA := by
  rw [mkSpreadSignal, tieDf_metrics_A]
  norm_num [calculateScore, getRiskLabel, sigA]

/-- The Spread pass on team B yields `sigB`. -/
theorem tieDf_mkB : mkSpreadSignal tieDf (7/2) (some "B") = some sigB := by
  rw [mkSpreadSignal, tieDf_metrics_B]
  norm_num [calculateScore, getRiskLabel, sigB]

/-- The Total pass on `tieDf` yields nothing. -/
theorem tieDf_mkTot (sd : String) : mkTotalSignal tieDf 6 sd = none := by
  rw [mkTotalSignal, tieDf_metrics_total]
  rfl

/-- The Moneyline pass on `tieDf` yields nothing. -/
theorem tieDf_mkMl (t : Option String) : mkMoneylineSignal tieDf t = none := by
  rw [mkMoneylineSignal, tieDf_metrics_ml]
  rfl

/-- The encounter-order signal list on `tieDf`: A's signal first. -/
theorem tieDf_raw : rawSignals tieDf (7/2) 6 tieTeams = [sigA, sigB] := by
  rw [rawSignals]
  simp [tieTeams, tieDf_mkA, tieDf_mkB, tieDf_mkTot, tieDf_mkMl]

/-- The full engine run on `tieDf`: the two equal-score signals keep
their encounter order, A's signal first. -/
theorem tieDf_run : runEngine tieDf (7/2) 6 = .ok [sigA, sigB] := by
  rw [runEngine, tieDf_detect]
  simp only [tieDf_raw]
  simp only [List.isEmpty_cons, List.reverse_cons, List.reverse_nil, List.nil_append,
    List.cons_append, List.insertionSort, List.orderedInsert]
  norm_num [scoreLE, sigA, sigB]

/-! ### C1 — output order of `analyze_all` -/

/-- C1: the output of `analyze_all` is a permutation of the produced
signals sorted by descending score, and any two signals with equal scores
appear in their original encounter order (Spread pass first, then Total,
then Moneyline, home before away within a pass): for every score class,
the output restricted to that class equals the encounter-order list
restricted to it.  pandas' descending sort reverses the rows, applies a
stable ascending argsort and reverses the indexer, so it is stable. -/
theorem analyzeAll_sorted_desc_ties_encounter (df : List Obs) (sb tb : ℚ)
    (teams : MatchInfo) (out : List Signal)
    (hd : detectMatchInfo df = .ok teams) (h : runEngine df sb tb = .ok out) :
    out.Pairwise (fun a b => b.score ≤ a.score) ∧
    out.Perm (rawSignals df sb tb teams) ∧
    ∀ s : ℤ, out.filter (fun x => x.score == s) =
      (rawSignals df sb tb teams).filter (fun x => x.score == s) := by
  obtain ⟨hne, rfl⟩ := runEngine_ok_elim hd h
  refine ⟨?_, ?_, fun s => ?_⟩
  · rw [List.pairwise_reverse]
    exact List.sorted_insertionSort scoreLE (rawSignals df sb tb teams).reverse
  · exact (List.reverse_perm _).trans
      ((List.perm_insertionSort scoreLE _).trans (List.reverse_perm _))
  · rw [List.filter_reverse, filter_score_insertionSort, List.filter_reverse,
      List.reverse_reverse]

/-- Witness for C1 on `tieDf`: the output `[sigA, sigB]` is sorted by
descending score, and the score-4 class comes out exactly in encounter
order. -/
theorem analyzeAll_sorted_desc_ties_encounter_witness :
    ([sigA, sigB] : List Signal).Pairwise (fun a b => b.score ≤ a.score) ∧
    ([sigA, sigB] : List Signal).filter (fun x => x.score == (4 : ℤ)) =
      (rawSignals tieDf (7/2) 6 tieTeams).filter (fun x => x.score == (4 : ℤ)) :=
  ⟨(analyzeAll_sorted_desc_ties_encounter tieDf (7/2) 6 tieTeams [sigA, sigB]
      tieDf_detect tieDf_run).1,
   (analyzeAll_sorted_desc_ties_encounter tieDf (7/2) 6 tieTeams [sigA, sigB]
      tieDf_detect tieDf_run).2.2 4⟩

/-! ### Shape of any produced signal -/

/-- Every signal in the encounter-order list comes from one of the three
passes, with all its fields determined by the pass, the metric and the
selection. -/
theorem raw_sig_shape {df : List Obs} {sb tb : ℚ} {teams : MatchInfo} {sig : Signal}
    (h : sig ∈ rawSignals df sb tb teams) :
    (∃ team m, (team = teams.home ∨ team = teams.away) ∧
      getMetrics df "Spread" team = some m ∧ sig.market = "SPREAD" ∧ sig.selection = team ∧
      sig.score = calculateScore "Spread" m team ∧ sig.risk = getRiskLabel sig.score ∧
      sig.safeBetLine = .teamLine team (m.close_line + sb) ∧ sig.metrics = m) ∨
    (∃ side m, (side = "over" ∨ side = "under") ∧
      getMetrics df "Total" (some side) = some m ∧ sig.market = "TOTAL " ++ pyUpper side ∧
      sig.selection = some "Puncte" ∧ sig.score = calculateScore "Total" m (some side) ∧
      sig.risk = getRiskLabel sig.score ∧
      sig.safeBetLine = .sideLine (pyTitle side)
        (if side == "over" then m.close_line - tb else m.close_line + tb) ∧
      sig.metrics = m) ∨
    (∃ team m, (team = teams.home ∨ team = teams.away) ∧
      getMetrics df "Moneyline" team = some m ∧ sig.market = "MONEYLINE" ∧
      sig.selection = team ∧ sig.score = calculateScore "Moneyline" m team ∧
      sig.risk = getRiskLabel sig.score ∧
      sig.safeBetLine = .text (if m.current_odds < 2 then "Victorie (ML)"
        else "Evită / H+ Alternativ") ∧
      sig.metrics = m) := by
  rcases mem_rawSignals.mp h with h1 | h1 | h1 | h1 | h1 | h1
  · obtain ⟨m, hm, rfl⟩ := mkSpreadSignal_eq_some.mp h1
    exact .inl ⟨teams.home, m, .inl rfl, hm, rfl, rfl, rfl, rfl, rfl, rfl⟩
  · obtain ⟨m, hm, rfl⟩ := mkSpreadSignal_eq_some.mp h1
    exact .inl ⟨teams.away, m, .inr rfl, hm, rfl, rfl, rfl, rfl, rfl, rfl⟩
  · obtain ⟨m, hm, rfl⟩ := mkTotalSignal_eq_some.mp h1
    exact .inr (.inl ⟨"over", m, .inl rfl, hm, rfl, rfl, rfl, rfl, rfl, rfl⟩)
  · obtain ⟨m, hm, rfl⟩ := mkTotalSignal_eq_some.mp h1
    exact .inr (.inl ⟨"under", m, .inr rfl, hm, rfl, rfl, rfl, rfl, rfl, rfl⟩)
  · obtain ⟨m, hm, rfl⟩ := mkMoneylineSignal_eq_some.mp h1
    exact .inr (.inr ⟨teams.home, m, .inl rfl, hm, rfl, rfl, rfl, rfl, rfl, rfl⟩)
  · obtain ⟨m, hm, rfl⟩ := mkMoneylineSignal_eq_some.mp h1
    exact .inr (.inr ⟨teams.away, m, .inr rfl, hm, rfl, rfl, rfl, rfl, rfl, rfl⟩)

/-- Membership in a successful output is membership in the encounter-order
list. -/
theorem mem_out_iff_mem_raw {df : List Obs} {sb tb : ℚ} {teams : MatchInfo}
    {out : List Signal} {sig : Signal}
    (hd : detectMatchInfo df = .ok teams) (h : runEngine df sb tb = .ok out) :
    sig ∈ out ↔ sig ∈ rawSignals df sb tb teams := by
  obtain ⟨-, rfl⟩ := runEngine_ok_elim hd h
  simp

/-! ### Evaluation of the engine on the no-signal dataset -/

/-- Match detection on `noSigDf` (away lookup fails; fallback finds the
single distinct team). -/
theorem noSigDf_detect : detectMatchInfo noSigDf = .ok ⟨some "A", some "Unknown"⟩ := by
  simp [detectMatchInfo, firstTeam, noSigDf, rowA, spreadRow, uniqueTeams, uniqueAux]

/-- No (market, selection) pair of `noSigDf` reaches five observations. -/
theorem noSigDf_metrics (mt : String) (sel : Option String) :
    getMetrics noSigDf mt sel = none := by
  have h : (metricsSubset noSigDf mt sel).length < 5 := by
    unfold metricsSubset
    split_ifs <;>
      exact lt_of_le_of_lt (List.length_filter_le _ _) (by norm_num [noSigDf])
  simp [getMetrics, h]

/-- No signal at all is produced on `noSigDf`. -/
theorem noSigDf_raw : rawSignals noSigDf (7/2) 6 ⟨some "A", some "Unknown"⟩ = [] := by
  rw [rawSignals]
  simp [mkSpreadSignal, mkTotalSignal, mkMoneylineSignal, noSigDf_metrics]

/-! ### C2 — omitted selections and the empty-output case -/

/-- C2 counterexample: on `noSigDf` every (market, selection) pair is
omitted (all metrics are `None`), the signal list is empty, and
`analyze_all` itself fails — `pd.DataFrame([]).sort_values('Score', ...)`
raises `KeyError` — instead of returning an empty output. -/
theorem analyzeAll_all_omitted_fails_cex :
    detectMatchInfo noSigDf = .ok ⟨some "A", some "Unknown"⟩ ∧
    rawSignals noSigDf (7/2) 6 ⟨some "A", some "Unknown"⟩ = [] ∧
    (runEngine noSigDf (7/2) 6).isOk = false := by
  refine ⟨noSigDf_detect, noSigDf_raw, ?_⟩
  rw [runEngine, noSigDf_detect]
  simp [noSigDf_raw, Except.isOk, Except.toBool]

/-- C2 (amended): when at least one signal is produced, `analyze_all`
returns normally and every (market, selection) pair whose metric was `None`
is silently absent from the output; when *every* pair is omitted the call
fails with a `KeyError` (see the counterexample). -/
theorem analyzeAll_omits_none_pairs (df : List Obs) (sb tb : ℚ) (teams : MatchInfo)
    (hd : detectMatchInfo df = .ok teams) (hne : rawSignals df sb tb teams ≠ []) :
    ∃ out, runEngine df sb tb = .ok out ∧
      (getMetrics df "Spread" teams.home = none →
        ∀ sig ∈ out, ¬(sig.market = "SPREAD" ∧ sig.selection = teams.home)) ∧
      (getMetrics df "Spread" teams.away = none →
        ∀ sig ∈ out, ¬(sig.market = "SPREAD" ∧ sig.selection = teams.away)) ∧
      (getMetrics df "Total" (some "over") = none →
        ∀ sig ∈ out, sig.market ≠ "TOTAL OVER") ∧
      (getMetrics df "Total" (some "under") = none →
        ∀ sig ∈ out, sig.market ≠ "TOTAL UNDER") ∧
      (getMetrics df "Moneyline" teams.home = none →
        ∀ sig ∈ out, ¬(sig.market = "MONEYLINE" ∧ sig.selection = teams.home)) ∧
      (getMetrics df "Moneyline" teams.away = none →
        ∀ sig ∈ out, ¬(sig.market = "MONEYLINE" ∧ sig.selection = teams.away)) := by
  refine ⟨_, runEngine_ok_intro hd hne, ?_, ?_, ?_, ?_, ?_, ?_⟩ <;> intro hnone sig hsig
  all_goals
    have hraw : sig ∈ rawSignals df sb tb teams := by simpa using hsig
    rcases raw_sig_shape hraw with ⟨team, m, hor, hm, hmkt, hsel, -⟩ |
      ⟨side, m, hor, hm, hmkt, hsel, -⟩ | ⟨team, m, hor, hm, hmkt, hsel, -⟩
  -- Spread home omitted
  · rintro ⟨h1, h2⟩
    rw [hsel] at h2
    rw [h2] at hm
    rw [hnone] at hm
    cases hm
  · rintro ⟨h1, h2⟩
    rcases hor with rfl | rfl <;> rw [hmkt] at h1 <;> exact absurd h1 (by decide)
  · rintro ⟨h1, h2⟩
    rw [hmkt] at h1
    exact absurd h1 (by decide)
  -- Spread away omitted
  · rintro ⟨h1, h2⟩
    rw [hsel] at h2
    rw [h2] at hm
    rw [hnone] at hm
    cases hm
  · rintro ⟨h1, h2⟩
    rcases hor with rfl | rfl <;> rw [hmkt] at h1 <;> exact absurd h1 (by decide)
  · rintro ⟨h1, h2⟩
    rw [hmkt] at h1
    exact absurd h1 (by decide)
  -- Total over omitted
  · rw [hmkt]
    decide
  · rcases hor with rfl | rfl
    · rw [hnone] at hm
      cases hm
    · rw [hmkt]
      decide
  · rw [hmkt]
    decide
  -- Total under omitted
  · rw [hmkt]
    decide
  · rcases hor with rfl | rfl
    · rw [hmkt]
      decide
    · rw [hnone] at hm
      cases hm
  · rw [hmkt]
    decide
  -- Moneyline home omitted
  · rintro ⟨h1, h2⟩
    rw [hmkt] at h1
    exact absurd h1 (by decide)
  · rintro ⟨h1, h2⟩
    rcases hor with rfl | rfl <;> rw [hmkt] at h1 <;> exact absurd h1 (by decide)
  · rintro ⟨h1, h2⟩
    rw [hsel] at h2
    rw [h2] at hm
    rw [hnone] at hm
    cases hm
  -- Moneyline away omitted
  · rintro ⟨h1, h2⟩
    rw [hmkt] at h1
    exact absurd h1 (by decide)
  · rintro ⟨h1, h2⟩
    rcases hor with rfl | rfl <;> rw [hmkt] at h1 <;> exact absurd h1 (by decide)
  · rintro ⟨h1, h2⟩
    rw [hsel] at h2
    rw [h2] at hm
    rw [hnone] at hm
    cases hm

/-- Witness for the amended C2 on `tieDf`: the run succeeds and the signal
coming out first does not belong to the omitted Total-over pair. -/
theorem analyzeAll_omits_none_pairs_witness :
    (runEngine tieDf (7/2) 6).isOk = true ∧ sigB.market ≠ "TOTAL OVER" := by
  obtain ⟨out, hok, -, -, hover, -⟩ :=
    analyzeAll_omits_none_pairs tieDf (7/2) 6 tieTeams tieDf_detect (by rw [tieDf_raw]; simp)
  have hout : out = [sigA, sigB] := by
    have h2 := tieDf_run
    rw [hok] at h2
    exact Except.ok.inj h2
  refine ⟨by rw [hok]; rfl, ?_⟩
  exact hover (tieDf_metrics_total _) sigB (by rw [hout]; simp)

/-! ### C5 — the five-observation threshold -/

/-- Value of `sigLabel` on the Spread market. -/
theorem sigLabel_spread (sel : Option String) : sigLabel "Spread" sel = ("SPREAD", sel) := by
  rw [sigLabel, if_neg (by decide), if_pos rfl]

/-- Value of `sigLabel` on the Total market. -/
theorem sigLabel_total (sel : Option String) :
    sigLabel "Total" sel = ("TOTAL " ++ pyUpper (sel.getD ""), some "Puncte") := by
  rw [sigLabel, if_pos rfl]

/-- Value of `sigLabel` on the Moneyline market. -/
theorem sigLabel_ml (sel : Option String) : sigLabel "Moneyline" sel = ("MONEYLINE", sel) := by
  rw [sigLabel, if_neg (by decide), if_neg (by decide)]

/-- A produced signal labelled SPREAD for a team witnesses a computed
Spread metric for that team. -/
theorem spread_sig_metrics {df : List Obs} {sb tb : ℚ} {teams : MatchInfo} {sig : Signal}
    {t : Option String} (hsig : sig ∈ rawSignals df sb tb teams)
    (hmkt : sig.market = "SPREAD") (hsel : sig.selection = t) :
    ∃ m, getMetrics df "Spread" t = some m := by
  rcases raw_sig_shape hsig with ⟨team, m, hor, hm, hmkt2, hsel2, -⟩ |
    ⟨side, m, hor, hm, hmkt2, -⟩ | ⟨team, m, hor, hm, hmkt2, -⟩
  · exact ⟨m, by rw [← hsel, hsel2, hm]⟩
  · rcases hor with rfl | rfl <;> rw [hmkt2] at hmkt <;> exact absurd hmkt (by decide)
  · rw [hmkt2] at hmkt
    exact absurd hmkt (by decide)

/-- A produced signal labelled TOTAL OVER witnesses a computed Total/over
metric. -/
theorem total_over_sig_metrics {df : List Obs} {sb tb : ℚ} {teams : MatchInfo} {sig : Signal}
    (hsig : sig ∈ rawSignals df sb tb teams) (hmkt : sig.market = "TOTAL OVER") :
    ∃ m, getMetrics df "Total" (some "over") = some m := by
  rcases raw_sig_shape hsig with ⟨team, m, hor, hm, hmkt2, -⟩ |
    ⟨side, m, hor, hm, hmkt2, -⟩ | ⟨team, m, hor, hm, hmkt2, -⟩
  · rw [hmkt2] at hmkt
    exact absurd hmkt (by decide)
  · rcases hor with rfl | rfl
    · exact ⟨m, hm⟩
    · rw [hmkt2] at hmkt
      exact absurd hmkt (by decide)
  · rw [hmkt2] at hmkt
    exact absurd hmkt (by decide)

/-- A produced signal labelled TOTAL UNDER witnesses a computed Total/under
metric. -/
theorem total_under_sig_metrics {df : List Obs} {sb tb : ℚ} {teams : MatchInfo} {sig : Signal}
    (hsig : sig ∈ rawSignals df sb tb teams) (hmkt : sig.market = "TOTAL UNDER") :
    ∃ m, getMetrics df "Total" (some "under") = some m := by
  rcases raw_sig_shape hsig with ⟨team, m, hor, hm, hmkt2, -⟩ |
    ⟨side, m, hor, hm, hmkt2, -⟩ | ⟨team, m, hor, hm, hmkt2, -⟩
  · rw [hmkt2] at hmkt
    exact absurd hmkt (by decide)
  · rcases hor with rfl | rfl
    · rw [hmkt2] at hmkt
      exact absurd hmkt (by decide)
    · exact ⟨m, hm⟩
  · rw [hmkt2] at hmkt
    exact absurd hmkt (by decide)

/-- A produced signal labelled MONEYLINE for a team witnesses a computed
Moneyline metric for that team. -/
theorem ml_sig_metrics {df : List Obs} {sb tb : ℚ} {teams : MatchInfo} {sig : Signal}
    {t : Option String} (hsig : sig ∈ rawSignals df sb tb teams)
    (hmkt : sig.market = "MONEYLINE") (hsel : sig.selection = t) :
    ∃ m, getMetrics df "Moneyline" t = some m := by
  rcases raw_sig_shape hsig with ⟨team, m, hor, hm, hmkt2, -⟩ |
    ⟨side, m, hor, hm, hmkt2, -⟩ | ⟨team, m, hor, hm, hmkt2, hsel2, -⟩
  · rw [hmkt2] at hmkt
    exact absurd hmkt (by decide)
  · rcases hor with rfl | rfl <;> rw [hmkt2] at hmkt <;> exact absurd hmkt (by decide)
  · exact ⟨m, by rw [← hsel, hsel2, hm]⟩

/-- C5: `_get_metrics` returns `None` exactly when the filtered subset
(filtered by market and side for Total, by market and team otherwise) has
fewer than five observations; consequently a queried pair below the
threshold never appears in `analyze_all`'s output, while every queried pair
at or above the threshold contributes a signal to a successful output. -/
theorem getMetrics_none_iff_threshold (df : List Obs) (sb tb : ℚ) (teams : MatchInfo)
    (hd : detectMatchInfo df = .ok teams) :
    (∀ mt sel, getMetrics df mt sel = none ↔ (metricsSubset df mt sel).length < 5) ∧
    (∀ mt sel, (mt, sel) ∈ queriedPairs teams →
      ((metricsSubset df mt sel).length < 5 →
        ∀ out, runEngine df sb tb = .ok out →
          ∀ sig ∈ out, ¬(sig.market = (sigLabel mt sel).1 ∧
            sig.selection = (sigLabel mt sel).2)) ∧
      (5 ≤ (metricsSubset df mt sel).length →
        ∃ out sig, runEngine df sb tb = .ok out ∧ sig ∈ out ∧
          sig.market = (sigLabel mt sel).1 ∧ sig.selection = (sigLabel mt sel).2)) := by
  have hiff : ∀ mt sel, getMetrics df mt sel = none ↔ (metricsSubset df mt sel).length < 5 := by
    intro mt sel
    rw [getMetrics]
    by_cases h : (metricsSubset df mt sel).length < 5
    · simp [h]
    · simp [h]
  refine ⟨hiff, fun mt sel hp => ⟨fun hlt out hok sig hsig hlab => ?_, fun hge => ?_⟩⟩
  · have hraw : sig ∈ rawSignals df sb tb teams := (mem_out_iff_mem_raw hd hok).mp hsig
    have hnone : getMetrics df mt sel = none := (hiff mt sel).mpr hlt
    simp only [queriedPairs, List.mem_cons, List.mem_singleton, Prod.mk.injEq,
      List.not_mem_nil, or_false] at hp
    rcases hp with ⟨rfl, rfl⟩ | ⟨rfl, rfl⟩ | ⟨rfl, rfl⟩ | ⟨rfl, rfl⟩ | ⟨rfl, rfl⟩ | ⟨rfl, rfl⟩
    · rw [sigLabel_spread] at hlab
      obtain ⟨m, hm⟩ := spread_sig_metrics hraw hlab.1 hlab.2
      rw [hnone] at hm
      cases hm
    · rw [sigLabel_spread] at hlab
      obtain ⟨m, hm⟩ := spread_sig_metrics hraw hlab.1 hlab.2
      rw [hnone] at hm
      cases hm
    · rw [sigLabel_total] at hlab
      obtain ⟨m, hm⟩ := total_over_sig_metrics hraw hlab.1
      rw [hnone] at hm
      cases hm
    · rw [sigLabel_total] at hlab
      obtain ⟨m, hm⟩ := total_under_sig_metrics hraw hlab.1
      rw [hnone] at hm
      cases hm
    · rw [sigLabel_ml] at hlab
      obtain ⟨m, hm⟩ := ml_sig_metrics hraw hlab.1 hlab.2
      rw [hnone] at hm
      cases hm
    · rw [sigLabel_ml] at hlab
      obtain ⟨m, hm⟩ := ml_sig_metrics hraw hlab.1 hlab.2
      rw [hnone] at hm
      cases hm
  · have hsome : ∃ m, getMetrics df mt sel = some m := by
      rcases hopt : getMetrics df mt sel with _ | m
      · exact absurd ((hiff mt sel).mp hopt) (by omega)
      · exact ⟨m, rfl⟩
    obtain ⟨m, hm⟩ := hsome
    simp only [queriedPairs, List.mem_cons, List.mem_singleton, Prod.mk.injEq,
      List.not_mem_nil, or_false] at hp
    rcases hp with ⟨rfl, rfl⟩ | ⟨rfl, rfl⟩ | ⟨rfl, rfl⟩ | ⟨rfl, rfl⟩ | ⟨rfl, rfl⟩ | ⟨rfl, rfl⟩
    · refine ?_
      have hsig : mkSpreadSignal df sb teams.home = some _ := mkSpreadSignal_eq_some.mpr ⟨m, hm, rfl⟩
      have hmem : _ ∈ rawSignals df sb tb teams := mem_rawSignals.mpr (.inl hsig)
      refine ⟨_, _, runEngine_ok_intro hd (List.ne_nil_of_mem hmem),
        (mem_out_iff_mem_raw hd (runEngine_ok_intro hd (List.ne_nil_of_mem hmem))).mpr hmem,
        ?_, ?_⟩ <;> rw [sigLabel_spread] <;> rfl
    · have hsig : mkSpreadSignal df sb teams.away = some _ := mkSpreadSignal_eq_some.mpr ⟨m, hm, rfl⟩
      have hmem : _ ∈ rawSignals df sb tb teams := mem_rawSignals.mpr (.inr (.inl hsig))
      refine ⟨_, _, runEngine_ok_intro hd (List.ne_nil_of_mem hmem),
        (mem_out_iff_mem_raw hd (runEngine_ok_intro hd (List.ne_nil_of_mem hmem))).mpr hmem,
        ?_, ?_⟩ <;> rw [sigLabel_spread] <;> rfl
    · have hsig : mkTotalSignal df tb "over" = some _ := mkTotalSignal_eq_some.mpr ⟨m, hm, rfl⟩
      have hmem : _ ∈ rawSignals df sb tb teams := mem_rawSignals.mpr (.inr (.inr (.inl hsig)))
      refine ⟨_, _, runEngine_ok_intro hd (List.ne_nil_of_mem hmem),
        (mem_out_iff_mem_raw hd (runEngine_ok_intro hd (List.ne_nil_of_mem hmem))).mpr hmem,
        ?_, ?_⟩ <;> rw [sigLabel_total] <;> rfl
    · have hsig : mkTotalSignal df tb "under" = some _ := mkTotalSignal_eq_some.mpr ⟨m, hm, rfl⟩
      have hmem : _ ∈ rawSignals df sb tb teams :=
        mem_rawSignals.mpr (.inr (.inr (.inr (.inl hsig))))
      refine ⟨_, _, runEngine_ok_intro hd (List.ne_nil_of_mem hmem),
        (mem_out_iff_mem_raw hd (runEngine_ok_intro hd (List.ne_nil_of_mem hmem))).mpr hmem,
        ?_, ?_⟩ <;> rw [sigLabel_total] <;> rfl
    · have hsig : mkMoneylineSignal df teams.home = some _ := mkMoneylineSignal_eq_some.mpr ⟨m, hm, rfl⟩
      have hmem : _ ∈ rawSignals df sb tb teams :=
        mem_rawSignals.mpr (.inr (.inr (.inr (.inr (.inl hsig)))))
      refine ⟨_, _, runEngine_ok_intro hd (List.ne_nil_of_mem hmem),
        (mem_out_iff_mem_raw hd (runEngine_ok_intro hd (List.ne_nil_of_mem hmem))).mpr hmem,
        ?_, ?_⟩ <;> rw [sigLabel_ml] <;> rfl
    · have hsig : mkMoneylineSignal df teams.away = some _ := mkMoneylineSignal_eq_some.mpr ⟨m, hm, rfl⟩
      have hmem : _ ∈ rawSignals df sb tb teams :=
        mem_rawSignals.mpr (.inr (.inr (.inr (.inr (.inr hsig)))))
      refine ⟨_, _, runEngine_ok_intro hd (List.ne_nil_of_mem hmem),
        (mem_out_iff_mem_raw hd (runEngine_ok_intro hd (List.ne_nil_of_mem hmem))).mpr hmem,
        ?_, ?_⟩ <;> rw [sigLabel_ml] <;> rfl

/-- Witness for C5 on `tieDf`: the Total/over pair has no five
observations, and its metric is indeed `None`. -/
theorem getMetrics_none_iff_threshold_witness :
    getMetrics tieDf "Total" (some "over") = none ↔
      (metricsSubset tieDf "Total" (some "over")).length < 5 :=
  (getMetrics_none_iff_threshold tieDf (7/2) 6 tieTeams tieDf_detect).1 "Total" (some "over")

/-! ### C9 — the safe-bet-line field -/

/-- C9: in every successful output, a SPREAD signal carries its team with
`close_line + spread_buffer`; a TOTAL OVER signal carries Over with
`close_line - total_buffer` and a TOTAL UNDER signal Under with
`close_line + total_buffer`; a MONEYLINE signal carries the text
"Victorie (ML)" exactly when `current_odds < 2.0` and the cautionary
alternative "Evită / H+ Alternativ" otherwise. -/
theorem signal_safe_bet_line_spec (df : List Obs) (sb tb : ℚ) (teams : MatchInfo)
    (out : List Signal) (hd : detectMatchInfo df = .ok teams)
    (hok : runEngine df sb tb = .ok out) :
    ∀ sig ∈ out,
      (sig.market = "SPREAD" → ∃ team m, (team = teams.home ∨ team = teams.away) ∧
        getMetrics df "Spread" team = some m ∧ sig.selection = team ∧
        sig.safeBetLine = .teamLine team (m.close_line + sb)) ∧
      (sig.market = "TOTAL OVER" → ∃ m, getMetrics df "Total" (some "over") = some m ∧
        sig.safeBetLine = .sideLine "Over" (m.close_line - tb)) ∧
      (sig.market = "TOTAL UNDER" → ∃ m, getMetrics df "Total" (some "under") = some m ∧
        sig.safeBetLine = .sideLine "Under" (m.close_line + tb)) ∧
      (sig.market = "MONEYLINE" → ∃ team m, (team = teams.home ∨ team = teams.away) ∧
        getMetrics df "Moneyline" team = some m ∧ sig.selection = team ∧
        sig.safeBetLine = .text (if m.current_odds < 2 then "Victorie (ML)"
          else "Evită / H+ Alternativ")) := by
  intro sig hsig
  have hraw : sig ∈ rawSignals df sb tb teams := (mem_out_iff_mem_raw hd hok).mp hsig
  rcases raw_sig_shape hraw with ⟨team, m, hor, hm, hmkt, hsel, hscore, hrisk, hsbl, hmet⟩ |
    ⟨side, m, hside, hm, hmkt, hsel, hscore, hrisk, hsbl, hmet⟩ |
    ⟨team, m, hor, hm, hmkt, hsel, hscore, hrisk, hsbl, hmet⟩
  · refine ⟨fun _ => ⟨team, m, hor, hm, hsel, hsbl⟩, fun hx => ?_, fun hx => ?_, fun hx => ?_⟩ <;>
      rw [hmkt] at hx <;> exact absurd hx (by decide)
  · rcases hside with rfl | rfl
    · refine ⟨fun hx => ?_, fun _ => ⟨m, hm, ?_⟩, fun hx => ?_, fun hx => ?_⟩
      · rw [hmkt] at hx
        exact absurd hx (by decide)
      · rw [hsbl]
        rfl
      · rw [hmkt] at hx
        exact absurd hx (by decide)
      · rw [hmkt] at hx
        exact absurd hx (by decide)
    · refine ⟨fun hx => ?_, fun hx => ?_, fun _ => ⟨m, hm, ?_⟩, fun hx => ?_⟩
      · rw [hmkt] at hx
        exact absurd hx (by decide)
      · rw [hmkt] at hx
        exact absurd hx (by decide)
      · rw [hsbl]
        rfl
      · rw [hmkt] at hx
        exact absurd hx (by decide)
  · refine ⟨fun hx => ?_, fun hx => ?_, fun hx => ?_, fun _ => ⟨team, m, hor, hm, hsel, hsbl⟩⟩ <;>
      rw [hmkt] at hx <;> exact absurd hx (by decide)

/-- Witness for C9 on `tieDf`: team B's SPREAD signal carries team B with
`close_line + spread_buffer = 0 + 7/2`. -/
theorem signal_safe_bet_line_spec_witness :
    sigB.safeBetLine = BetLine.teamLine (some "B") ((0 : ℚ) + 7/2) := by
  have h := (signal_safe_bet_line_spec tieDf (7/2) 6 tieTeams [sigA, sigB]
    tieDf_detect tieDf_run sigB (by simp)).1 rfl
  obtain ⟨team, m, hor, hm, hsel, hsbl⟩ := h
  have hteam : team = some "B" := by rw [← hsel]; rfl
  rw [hteam] at hm hsbl
  rw [tieDf_metrics_B] at hm
  obtain rfl := Option.some.inj hm
  exact hsbl

/-- Witness for C6 on `tieDf`: the Spread/A pair has exactly five
observations and its metric equals the spec-side computation. -/
theorem getMetrics_eq_spec_witness :
    5 ≤ (metricsSubset tieDf "Spread" (some "A")).length ∧
    getMetrics tieDf "Spread" (some "A") = some (metricsSpec tieDf "Spread" (some "A")) :=
  ⟨by rw [tieDf_subset_A]; norm_num,
   getMetrics_eq_spec tieDf "Spread" (some "A") (by rw [tieDf_subset_A]; norm_num)⟩
